import Mathlib

set_option maxHeartbeats 1000000

/- Shallow embedding of the video-downloader repository
   (src/video_downloader.py and src/legacy/xhs_downloader.py).
   Python strings are modeled as Lean strings (lists of characters);
   a Python dict lookup via .get is modeled as an Option-valued field.
   External collaborators (pyzbar, OpenCV, the network, yt-dlp, the
   filesystem) are modeled as explicit oracle parameters. -/

namespace XhsVid

/- Python primitive helpers -/

/-- Helper for the substring test: does the second list start with the first? -/
def leadsWith : List Char → List Char → Bool
  | [], _ => true
  | _ :: _, [] => false
  | a :: as, b :: bs => (a == b) && leadsWith as bs

/-- Python substring containment test (the `in` operator on strings), on
character lists: true iff the needle occurs contiguously in the haystack. -/
def containsSubList (needle : List Char) : List Char → Bool
  | [] => needle.isEmpty
  | c :: rest => leadsWith needle (c :: rest) || containsSubList needle rest

/-- Python substring containment test (the `in` operator on strings). -/
def containsSub (needle hay : String) : Bool :=
  containsSubList needle.data hay.data

/-- ASCII lower-casing of one character; models Python str.lower at the call
sites of the program, which only compare against ASCII fragments. -/
def lowerChar (c : Char) : Char :=
  if 65 ≤ c.toNat && c.toNat ≤ 90 then Char.ofNat (c.toNat + 32) else c

/-- Python str.lower (ASCII fragment of it, see lowerChar). -/
def pyLower (s : String) : String :=
  ⟨s.data.map lowerChar⟩

/-- Python truthiness of an optional string: None (missing key) and the empty
string are falsy, every other string is truthy. -/
def pyTruthy : Option String → Bool
  | none => false
  | some s => !(s == "")

/-- Python `a or b` on optional strings: the left operand if truthy, else the
right operand. -/
def pyOr (a b : Option String) : Option String :=
  if pyTruthy a then a else b

/- Platform classifier: detect_platform, src/video_downloader.py lines 128-138 -/

inductive Platform
  | weibo
  | xiaohongshu
  | instagram
  deriving DecidableEq, Repr

/-- detect_platform (src/video_downloader.py lines 128-138): lower-case the
URL, then test substrings in source order; raise ValueError when nothing
matches. -/
def detect_platform (url : String) : Except String Platform :=
  let url_lower := pyLower url
  if containsSub "weibo.com" url_lower || containsSub "weibo.cn" url_lower then
    .ok .weibo
  else if containsSub "xiaohongshu.com" url_lower || containsSub "xhslink.com" url_lower then
    .ok .xiaohongshu
  else if containsSub "instagram.com" url_lower then
    .ok .instagram
  else
    .error ("Unknown platform for URL: " ++ url)

/-- Spec-side definition (for the refinement claim C4): the fixed ordered
table of domain-fragment to tag pairs, weibo domains first, then
xiaohongshu domains, then the instagram domain. -/
def platformTable : List (String × Platform) :=
  [("weibo.com", .weibo), ("weibo.cn", .weibo),
   ("xiaohongshu.com", .xiaohongshu), ("xhslink.com", .xiaohongshu),
   ("instagram.com", .instagram)]

/-- Spec-side definition (for the refinement claim C4): classify by a
case-insensitive substring test against platformTable, first match wins,
UnknownPlatform error otherwise. -/
def classifySpec (url : String) : Except String Platform :=
  match platformTable.find? (fun e => containsSub e.1 (pyLower url)) with
  | some e => .ok e.2
  | none => .error ("Unknown platform for URL: " ++ url)

/- Filename sanitizer: sanitize_filename, src/video_downloader.py lines 141-148 -/

/-- The characters removed by the character class `[<>:"/\\|?*\n\r]` in
sanitize_filename. -/
def forbiddenChar (c : Char) : Bool :=
  c == '<' || c == '>' || c == ':' || c == '"' || c == '/' || c == '\\' ||
  c == '|' || c == '?' || c == '*' || c == '\n' || c == '\r'

/-- Scan forward to the first closing angle bracket and return the remainder
after it; none if there is no closing bracket. Helper for the HTML-tag
regex of sanitize_filename. -/
def tagEnd : List Char → Option (List Char)
  | [] => none
  | c :: rest => if c == '>' then some rest else tagEnd rest

/-- Given the characters after an opening angle bracket, return the remainder
after a complete HTML tag match of the regex (an opening bracket, one or
more characters none of which is a closing bracket, then a closing
bracket); none when the regex cannot match here. -/
def dropTag : List Char → Option (List Char)
  | [] => none
  | c :: rest => if c == '>' then none else tagEnd rest

/-- Left-to-right, non-overlapping removal of HTML tags, mirroring
Python re.sub of the tag regex with the empty replacement. The fuel
argument bounds recursion; the list length is always sufficient because
every recursive call strictly shortens the list. -/
def stripTagsAux : Nat → List Char → List Char
  | 0, l => l
  | _ + 1, [] => []
  | fuel + 1, c :: rest =>
    if c == '<' then
      match dropTag rest with
      | some rest2 => stripTagsAux fuel rest2
      | none => c :: stripTagsAux fuel rest
    else
      c :: stripTagsAux fuel rest

/-- Removal of HTML tags: re.sub of the tag regex with empty replacement
(src/video_downloader.py line 144). -/
def stripTags (l : List Char) : List Char :=
  stripTagsAux l.length l

/-- Python str.strip default whitespace set (ASCII portion). -/
def pySpace (c : Char) : Bool :=
  c == ' ' || c == '\t' || c == '\n' || c == '\r' || c == '\x0b' || c == '\x0c'

/-- Python str.strip: drop whitespace from both ends. -/
def pyStrip (l : List Char) : List Char :=
  ((l.dropWhile pySpace).reverse.dropWhile pySpace).reverse

/-- The transformation pipeline of sanitize_filename before the fallback:
strip HTML tags, remove the forbidden characters, strip surrounding
whitespace, truncate to 50 characters
(src/video_downloader.py lines 143-147). -/
def sanitizeCore (s : String) : List Char :=
  (pyStrip ((stripTags s.data).filter (fun c => !forbiddenChar c))).take 50

/-- sanitize_filename (src/video_downloader.py lines 141-148): the core
pipeline, with the fixed fallback name for an empty result. -/
def sanitize_filename (s : String) : String :=
  let r := sanitizeCore s
  if r.isEmpty then "video" else ⟨r⟩

/- QR decoder: read_qrcode, src/video_downloader.py lines 24-125 -/

inductive QrError
  | fileNotFound
  | couldNotRead
  | noQrFound
  deriving DecidableEq, Repr

/-- Oracle for the image-processing collaborators of read_qrcode (pyzbar,
OpenCV). Each Option field is the payload decoded by the barcode reader
after the corresponding preprocessing of the input image, none when that
attempt decodes nothing:
* fileOk: the image path exists (os.path.exists, line 26);
* pyzbarOrig: pyzbar on the original image (lines 30-35);
* imreadOk: cv2.imread returned an image (lines 38-40);
* cvDecoded: the dedicated OpenCV QR detector decoded text directly
  (truthy data, lines 43-48);
* cvLocated: the detector located the four corner points (line 51);
* cropScaled3: pyzbar on the located region cropped with 50 px padding
  clamped to the image bounds and upscaled 3x (lines 52-75);
* bottomScaled k: pyzbar on the bottom 40 percent of the image upscaled
  k-fold (lines 77-89);
* claheScaled k: pyzbar on the grayscale, CLAHE-enhanced image upscaled
  k-fold (lines 91-104);
* otsuScaled2: pyzbar on the Otsu-thresholded binary image upscaled 2x
  (lines 106-113);
* wholeScaled k: pyzbar on the whole original image upscaled k-fold
  (lines 115-123). -/
structure ImageOracle where
  fileOk : Bool
  imreadOk : Bool
  pyzbarOrig : Option String
  cvDecoded : Option String
  cvLocated : Bool
  cropScaled3 : Option String
  bottomScaled : Nat → Option String
  claheScaled : Nat → Option String
  otsuScaled2 : Option String
  wholeScaled : Nat → Option String

/-- One cascade stage of read_qrcode: return the decoded payload when this
attempt succeeded (the early return of the source), otherwise fall through
to the rest of the function. -/
def qrStep (o : Option String) (k : Unit → Except QrError String) :
    Except QrError String :=
  match o with
  | some s => .ok s
  | none => k ()

/-- read_qrcode (src/video_downloader.py lines 24-125): the ordered cascade
of decoding attempts, in source order, with the two I/O error exits. -/
def read_qrcode (img : ImageOracle) : Except QrError String :=
  if img.fileOk = false then .error .fileNotFound else
  qrStep img.pyzbarOrig fun _ =>
  if img.imreadOk = false then .error .couldNotRead else
  qrStep img.cvDecoded fun _ =>
  qrStep (if img.cvLocated then img.cropScaled3 else none) fun _ =>
  qrStep (img.bottomScaled 2) fun _ =>
  qrStep (img.bottomScaled 3) fun _ =>
  qrStep (img.bottomScaled 4) fun _ =>
  qrStep (img.claheScaled 2) fun _ =>
  qrStep (img.claheScaled 3) fun _ =>
  qrStep img.otsuScaled2 fun _ =>
  qrStep (img.wholeScaled 2) fun _ =>
  qrStep (img.wholeScaled 3) fun _ =>
  .error .noQrFound

/-- The results of the seven preprocessing stages of the cascade, in the
order the claim states them: plain reader; dedicated detector; padded-crop
3x upscale (attempted only when the detector located the corner points);
bottom-40-percent crop at upscales 2, 3, 4; grayscale plus adaptive
contrast at upscales 2, 3; automatic binary threshold at 2x; whole-image
upscales 2, 3. -/
def stageResults (img : ImageOracle) : List (Option String) :=
  [img.pyzbarOrig,
   img.cvDecoded,
   if img.cvLocated then img.cropScaled3 else none,
   img.bottomScaled 2, img.bottomScaled 3, img.bottomScaled 4,
   img.claheScaled 2, img.claheScaled 3,
   img.otsuScaled2,
   img.wholeScaled 2, img.wholeScaled 3]

/-- The first successful result in a list of attempts. -/
def firstSome : List (Option String) → Option String
  | [] => none
  | o :: l =>
    match o with
    | some s => some s
    | none => firstSome l

/-- Concrete oracle for the claim C2 witness: an image whose QR code is only
decoded by the grayscale-plus-contrast stage at upscale 3. -/
def c2img : ImageOracle :=
  ⟨true, true, none, none, false, none, fun _ => none,
   fun k => if k == 3 then some "QRDATA" else none, none, fun _ => none⟩

/- Output-path collision avoidance: get_unique_path,
   src/video_downloader.py lines 431-441 -/

/-- Index (from the front) of the last occurrence of a character, modeling
Python str.rfind. -/
def rfindIdx (c : Char) : List Char → Option Nat
  | [] => none
  | x :: xs =>
    match rfindIdx c xs with
    | some i => some (i + 1)
    | none => if x == c then some 0 else none

/-- os.path.splitext, posix flavor: split off the extension at the last dot,
provided it lies in the final path component and that component does not
consist solely of dots up to it. -/
def splitext (p : String) : String × String :=
  let l := p.data
  match rfindIdx '.' l with
  | none => (p, "")
  | some d =>
    let start := match rfindIdx '/' l with
      | none => 0
      | some s2 => s2 + 1
    if start ≤ d && ((l.drop start).take (d - start)).any (fun c => !(c == '.')) then
      (⟨l.take d⟩, ⟨l.drop d⟩)
    else
      (p, "")

/-- Decimal digit character. -/
def digitChar (n : Nat) : Char := Char.ofNat (48 + n)

/-- Decimal rendering of a natural number (the f-string formatting of the
loop counter), fuel-based so that the kernel can evaluate it; fuel n + 1
always suffices. -/
def natToDecAux : Nat → Nat → List Char
  | 0, _ => []
  | fuel + 1, n =>
    if n < 10 then [digitChar n]
    else natToDecAux fuel (n / 10) ++ [digitChar (n % 10)]

/-- Decimal rendering of a natural number. -/
def natToDec (n : Nat) : List Char := natToDecAux (n + 1) n

/-- Decimal rendering as a string. -/
def decRepr (n : Nat) : String := ⟨natToDec n⟩

/-- The candidate path the collision loop builds from the original base and
extension and the current counter. -/
def mkCand (base ext : String) (counter : Nat) : String :=
  base ++ "_" ++ decRepr counter ++ ext

/-- The while loop of get_unique_path (lines 438-440), fuel-based: check the
candidate for the current counter; if it exists, move to the next counter.
Fuel fs.length + 1 always suffices because candidates are pairwise
distinct while the filesystem list is finite. -/
def uniqueLoop (fs : List String) (base ext : String) : Nat → Nat → String
  | counter, 0 => mkCand base ext counter
  | counter, fuel + 1 =>
    if mkCand base ext counter ∈ fs then uniqueLoop fs base ext (counter + 1) fuel
    else mkCand base ext counter

/-- get_unique_path (src/video_downloader.py lines 431-441), with the
filesystem modeled as the list of existing paths: return the requested
path when free, otherwise suffix an incrementing counter before the
extension until the candidate is free. -/
def get_unique_path (fs : List String) (output_path : String) : String :=
  if output_path ∈ fs then
    let be := splitext output_path
    uniqueLoop fs be.1 be.2 1 (fs.length + 1)
  else output_path

/-- The sequence of paths the collision logic considers: the requested path
itself, then the suffixed variants with counters 1, 2, dots. -/
def candSeq (p : String) : Nat → String
  | 0 => p
  | k + 1 => mkCand (splitext p).1 (splitext p).2 (k + 1)

/-- Value of a decimal digit string; used to show decimal rendering is
injective. -/
def decVal (l : List Char) : Nat :=
  l.foldl (fun a c => 10 * a + (c.toNat - 48)) 0

/-- os.path.join for the shapes arising in this program. -/
def pathJoin (a b : String) : String :=
  if b.data.head? = some '/' then b
  else if a == "" then b
  else if a.data.getLast? = some '/' then a ++ b
  else a ++ "/" ++ b

/- Weibo locator: WeiboDownloader.get_video_info and download,
   src/video_downloader.py lines 288-338 -/

inductive WeiboErr
  | apiError (msg : String)
  | notAVideo
  | noVideoUrl
  | upstream (msg : String)
  deriving DecidableEq, Repr

/-- The urls dict of the Weibo page_info; a key missing from the JSON is a
none field (page_info.get of urls with default empty dict yields the
all-none record). -/
structure WeiboUrls where
  mp4_720p_mp4 : Option String
  mp4_hd_mp4 : Option String
  mp4_ld_mp4 : Option String
  deriving DecidableEq, Repr

/-- The media_info dict of the Weibo page_info (legacy streaming-URL
fields). -/
structure WeiboMediaInfo where
  stream_url_hd : Option String
  stream_url : Option String
  deriving DecidableEq, Repr

structure WeiboPageInfo where
  type : Option String
  urls : WeiboUrls
  media_info : WeiboMediaInfo
  deriving DecidableEq, Repr

structure WeiboUser where
  screen_name : Option String
  deriving DecidableEq, Repr

structure WeiboStatus where
  page_info : Option WeiboPageInfo
  text : Option String
  user : Option WeiboUser
  deriving DecidableEq, Repr

/-- The decoded JSON of the Weibo mobile status API. -/
structure WeiboResp where
  ok : Option Int
  msg : Option String
  data : Option WeiboStatus
  deriving DecidableEq, Repr

def emptyUrls : WeiboUrls := ⟨none, none, none⟩

def emptyMediaInfo : WeiboMediaInfo := ⟨none, none⟩

def emptyPageInfo : WeiboPageInfo := ⟨none, emptyUrls, emptyMediaInfo⟩

def emptyStatus : WeiboStatus := ⟨none, none, none⟩

def emptyUser : WeiboUser := ⟨none⟩

/-- data.get of the data key with default empty dict (line 300). -/
def weiboStatusOf (resp : WeiboResp) : WeiboStatus := resp.data.getD emptyStatus

/-- status.get of the page_info key with default empty dict (line 301). -/
def weiboPageInfoOf (resp : WeiboResp) : WeiboPageInfo :=
  (weiboStatusOf resp).page_info.getD emptyPageInfo

/-- Title derivation of WeiboDownloader.get_video_info (lines 318-323):
the post text with HTML tags stripped and sanitized, or a name built from
the author's display name when the stripped text is empty. -/
def weibo_title (resp : WeiboResp) : String :=
  let status := weiboStatusOf resp
  let text : String := ⟨stripTags (status.text.getD "").data⟩
  let user_name := ((status.user.getD emptyUser).screen_name).getD "weibo"
  if text == "" then "weibo_" ++ user_name else sanitize_filename text

/-- The first video_url assignment of WeiboDownloader.get_video_info (line
308): the or-chain over the urls dict, 720p then HD then
standard-definition MP4. -/
def wV1 (resp : WeiboResp) : Option String :=
  let urls := (weiboPageInfoOf resp).urls
  pyOr (pyOr urls.mp4_720p_mp4 urls.mp4_hd_mp4) urls.mp4_ld_mp4

/-- The video_url after the media_info fallback (lines 310-313): keep the
urls-dict selection when truthy, otherwise the or-chain over the legacy
streaming fields, HD first. -/
def wV2 (resp : WeiboResp) : Option String :=
  if pyTruthy (wV1 resp) then wV1 resp
  else pyOr (weiboPageInfoOf resp).media_info.stream_url_hd
    (weiboPageInfoOf resp).media_info.stream_url

/-- WeiboDownloader.get_video_info, response-processing part
(src/video_downloader.py lines 296-325). Status-id extraction and the
HTTP request precede this and are modeled at the call boundary; this
function consumes the decoded JSON response. -/
def weibo_get_video_info (resp : WeiboResp) : Except WeiboErr (String × String) :=
  if resp.ok ≠ some 1 then .error (.apiError (resp.msg.getD "Unknown error"))
  else if (weiboPageInfoOf resp).type ≠ some "video" then .error .notAVideo
  else if pyTruthy (wV2 resp) = false then .error .noVideoUrl
  else .ok ((wV2 resp).getD "", weibo_title resp)

/-- The candidate media URLs in the claimed preference order: 720p MP4, HD
MP4, standard-definition MP4, then the legacy streaming fields HD first. -/
def weibo_candidates (resp : WeiboResp) : List (Option String) :=
  let pi := weiboPageInfoOf resp
  [pi.urls.mp4_720p_mp4, pi.urls.mp4_hd_mp4, pi.urls.mp4_ld_mp4,
   pi.media_info.stream_url_hd, pi.media_info.stream_url]

/-- The first truthy candidate of a list (Python or-chains with a fallback
chain select exactly this). -/
def firstTruthy : List (Option String) → Option String
  | [] => none
  | o :: l => if pyTruthy o then o else firstTruthy l

/-- WeiboDownloader.download (src/video_downloader.py lines 327-338):
locate, then compute the collision-avoided output path, then hand the pair
to the transfer collaborator. The filesystem is the list of existing
paths; the result carries the media URL and the computed output path. -/
def weibo_download (fs : List String) (output_dir : String) (resp : WeiboResp) :
    Except WeiboErr (String × String) :=
  match weibo_get_video_info resp with
  | .error e => .error e
  | .ok r =>
    let output_path := get_unique_path fs (pathJoin output_dir (r.2 ++ ".mp4"))
    .ok (r.1, output_path)

/-- Weibo locate with the HTTP fetch modeled: a transport failure propagates
(get_video_info has no handler; response.raise_for_status and the request
itself raise through). -/
def weibo_locate (fetch : Except String WeiboResp) : Except WeiboErr (String × String) :=
  match fetch with
  | .error e => .error (.upstream e)
  | .ok resp => weibo_get_video_info resp

/-- Concrete response for the claim C7 witness: a successful video response
offering only the HD MP4 variant. -/
def wRespW : WeiboResp :=
  ⟨some 1, none,
   some ⟨some ⟨some "video", ⟨none, some "http://hd", none⟩, ⟨none, none⟩⟩,
     some "", none⟩⟩

/-- Concrete response for the claim C8 counterexample: an unsuccessful
response (ok flag 0) whose page-info type is not video. -/
def wRespC8 : WeiboResp :=
  ⟨some 0, some "rate limited",
   some ⟨some ⟨some "image", emptyUrls, emptyMediaInfo⟩, none, none⟩⟩

/-- Concrete response for the claim C8 amended witness: a successful
response whose page-info type is image, with a media URL present that
must never be selected. -/
def wRespC8b : WeiboResp :=
  ⟨some 1, none,
   some ⟨some ⟨some "image", ⟨some "http://x", none, none⟩, emptyMediaInfo⟩,
     none, none⟩⟩

/- Instagram locator: InstagramDownloader,
   src/video_downloader.py lines 341-415 -/

/-- The yt-dlp options dict built by InstagramDownloader._build_ydl_opts
(lines 349-364). -/
structure YdlOpts where
  quiet : Bool
  no_warnings : Bool
  extract_flat : Bool
  cookiefile : Option String
  cookiesfrombrowser : Option String
  deriving DecidableEq, Repr

/-- Constructor configuration of InstagramDownloader (lines 344-347). -/
structure InstaCfg where
  cookies_from_browser : Option String
  cookies_file : Option String
  deriving DecidableEq, Repr

/-- InstagramDownloader._build_ydl_opts (lines 349-364): the base options;
when use_cookies is set, prefer the cookie file, else the configured
browser profile, else the chrome default. -/
def build_ydl_opts (cfg : InstaCfg) (use_cookies : Bool) : YdlOpts :=
  let base : YdlOpts := ⟨true, true, false, none, none⟩
  if use_cookies then
    if pyTruthy cfg.cookies_file then
      ⟨base.quiet, base.no_warnings, base.extract_flat, cfg.cookies_file, none⟩
    else if pyTruthy cfg.cookies_from_browser then
      ⟨base.quiet, base.no_warnings, base.extract_flat, none, cfg.cookies_from_browser⟩
    else
      ⟨base.quiet, base.no_warnings, base.extract_flat, none, some "chrome"⟩
  else base

/-- One entry of the formats list of the yt-dlp info dict. -/
structure InstaFormat where
  ext : Option String
  acodec : Option String
  vcodec : Option String
  url : Option String
  deriving DecidableEq, Repr

/-- The fields of the yt-dlp info dict read by _parse_video_info. -/
structure InstaInfo where
  formats : List InstaFormat
  url : Option String
  description : Option String
  channel : Option String
  id : Option String
  deriving DecidableEq, Repr

/-- InstagramDownloader._parse_video_info (lines 371-400): take the first
MP4 format whose audio and video codecs are both distinct from the string
none (a missing codec field passes the test, since Python None differs
from that string); fall back to the top-level url field; fail when
neither is truthy; the title is the sanitized description or, when that
is empty, instagram_ followed by the channel or id or the word video. -/
def parse_video_info (info : Option InstaInfo) : Except String (String × String) :=
  match info with
  | none => .error "Could not extract video information from Instagram."
  | some i =>
    let firstProg := i.formats.find? (fun f =>
      (f.ext == some "mp4") && !(f.acodec == some "none") && !(f.vcodec == some "none"))
    let v1 : Option String :=
      match firstProg with
      | some f => f.url
      | none => none
    let video_url := if pyTruthy v1 then v1 else i.url
    if pyTruthy video_url = false then
      .error "Could not find video URL in Instagram response."
    else
      let t0 := i.description.getD ""
      let title := if t0 == "" then "instagram_" ++ (i.channel.getD (i.id.getD "video"))
        else sanitize_filename t0
      .ok (video_url.getD "", title)

/-- The retry condition of InstagramDownloader.get_video_info (line 410):
the lower-cased failure message mentions rate-limiting, a login
requirement, or unavailable content. -/
def retryCond (msg : String) : Bool :=
  let m := pyLower msg
  containsSub "rate-limit" m || containsSub "login required" m ||
    containsSub "requested content is not available" m

/-- InstagramDownloader.get_video_info (lines 402-415): first attempt with
cookie-free options; when it fails with a message matching the retry
condition, exactly one further attempt with cookie-bearing options, whose
outcome is final; any other failure propagates. The extraction engine
(yt-dlp) is the oracle extract, from an options dict to an info dict or a
failure message; the try block of the source also covers
_parse_video_info, hence the bind on the whole attempt. -/
def insta_get_video_info (extract : YdlOpts → Except String (Option InstaInfo))
    (cfg : InstaCfg) : Except String (String × String) :=
  match (extract (build_ydl_opts cfg false)).bind parse_video_info with
  | .ok r => .ok r
  | .error e =>
    if retryCond e then (extract (build_ydl_opts cfg true)).bind parse_video_info
    else .error e

/-- Concrete extraction oracle for the claim C3 witness: fails with a
login-required message when no credential material is in the options,
succeeds otherwise. -/
def c3extract : YdlOpts → Except String (Option InstaInfo) :=
  fun o =>
    if o.cookiefile == none && o.cookiesfrombrowser == none then
      .error "Login required"
    else
      .ok (some ⟨[⟨some "mp4", some "aac", some "h264", some "http://v.mp4"⟩],
        none, some "hi", none, none⟩)

/- Xiaohongshu locator and the redirect-resolution heuristic:
   XiaohongshuDownloader.get_video_info (src/video_downloader.py lines
   208-244) and the legacy orchestrator XHSDownloader.download_from_screenshot
   (src/legacy/xhs_downloader.py lines 182-196) -/

/-- The fetch-and-search tail of XiaohongshuDownloader.get_video_info
(lines 220-244): fetch the page HTML (network oracle, transport failures
propagate), then run the pattern search for masterUrl or backupUrls and
the title (abstracted as the htmlFind oracle, yielding the media URL and
title on a match; no claim concerns its internals); no match raises the
image-post error. -/
def xhs_fetch_and_find (fetch : String → Except String String)
    (htmlFind : String → Option (String × String)) (url : String) :
    Except String (String × String) :=
  match fetch url with
  | .error e => .error e
  | .ok html =>
    match htmlFind html with
    | some r => .ok r
    | none => .error "Could not find video URL. This might be an image post."

/-- XiaohongshuDownloader.get_video_info (lines 213-244): resolve the short
link first exactly when the URL contains the short-link domain (the
resolver is a network oracle whose failure propagates), then fetch and
search. -/
def xhs_get_video_info (resolve : String → Except String String)
    (fetch : String → Except String String)
    (htmlFind : String → Option (String × String)) (url : String) :
    Except String (String × String) :=
  if containsSub "xhslink.com" url then
    match resolve url with
    | .error e => .error e
    | .ok u => xhs_fetch_and_find fetch htmlFind u
  else xhs_fetch_and_find fetch htmlFind url

/-- Step 2 of the legacy orchestrator XHSDownloader.download_from_screenshot
(src/legacy/xhs_downloader.py lines 186-190): the decoded payload is
resolved through redirects iff it contains the short-link domain or is
shorter than 50 characters. -/
def legacy_page_url (resolve : String → String) (qr_url : String) : String :=
  if containsSub "xhslink.com" qr_url || decide (qr_url.length < 50) then resolve qr_url
  else qr_url

/- ===================== Theorems ===================== -/

/-- Claim C4: detect_platform performs a case-insensitive substring test
against the fixed ordered table (weibo domains first, then xiaohongshu
domains, then the instagram domain), returns the tag of the first matching
fragment, and fails with the UnknownPlatform error when no fragment
matches. -/
theorem detect_platform_eq_classifySpec (url : String) :
    detect_platform url = classifySpec url := by
  simp only [detect_platform, classifySpec, platformTable]
  cases h1 : containsSub "weibo.com" (pyLower url) <;>
  cases h2 : containsSub "weibo.cn" (pyLower url) <;>
  cases h3 : containsSub "xiaohongshu.com" (pyLower url) <;>
  cases h4 : containsSub "xhslink.com" (pyLower url) <;>
  cases h5 : containsSub "instagram.com" (pyLower url) <;>
  simp [List.find?, h1, h2, h3, h4, h5]

theorem stripTagsAux_id_of_no_tag_open (fuel : Nat) :
    ∀ l : List Char, '<' ∉ l → stripTagsAux fuel l = l := by
  induction fuel with
  | zero => intro l _; rfl
  | succ n ih =>
    intro l h
    cases l with
    | nil => rfl
    | cons c rest =>
      rw [List.mem_cons, not_or] at h
      have hc : (c == '<') = false := beq_eq_false_iff_ne.mpr (Ne.symm h.1)
      simp [stripTagsAux, hc, ih rest h.2]

theorem dropWhile_id_of_head (p : Char → Bool) (l : List Char)
    (h : ∀ c, l.head? = some c → p c = false) :
    l.dropWhile p = l := by
  cases l with
  | nil => rfl
  | cons c rest => simp [List.dropWhile_cons, h c rfl]

theorem pyStrip_id (l : List Char)
    (hh : ∀ c, l.head? = some c → pySpace c = false)
    (hl : ∀ c, l.getLast? = some c → pySpace c = false) :
    pyStrip l = l := by
  unfold pyStrip
  rw [dropWhile_id_of_head pySpace l hh]
  rw [dropWhile_id_of_head pySpace l.reverse
    (by intro c hc; exact hl c (by rwa [List.head?_reverse] at hc))]
  exact List.reverse_reverse l

theorem mem_of_mem_pyStrip {c : Char} {l : List Char} (h : c ∈ pyStrip l) : c ∈ l := by
  unfold pyStrip at h
  rw [List.mem_reverse] at h
  have h2 : c ∈ (l.dropWhile pySpace).reverse := (List.dropWhile_sublist pySpace).subset h
  rw [List.mem_reverse] at h2
  exact (List.dropWhile_sublist pySpace).subset h2

/-- Claim C5 (amended): every output of sanitize_filename is free of the
forbidden characters (the set lt gt colon quote slash backslash pipe
question star) and of newline characters, and has length at most 50; and
every nonempty already-clean short string (no forbidden characters, length
at most 50, no surrounding whitespace) is returned unchanged. The original
claim additionally covered the empty string and concluded idempotence on
all strings; both parts fail, see the counterexample theorem. -/
theorem sanitize_filename_amended (s : String) :
    ((∀ c ∈ (sanitize_filename s).data, forbiddenChar c = false) ∧
      (sanitize_filename s).length ≤ 50) ∧
    (s ≠ "" →
      (∀ c ∈ s.data, forbiddenChar c = false) →
      s.length ≤ 50 →
      (∀ c, s.data.head? = some c → pySpace c = false) →
      (∀ c, s.data.getLast? = some c → pySpace c = false) →
      sanitize_filename s = s) := by
  constructor
  · cases he : (sanitizeCore s).isEmpty with
    | true =>
      have hv : sanitize_filename s = "video" := by simp [sanitize_filename, he]
      rw [hv]
      exact ⟨by decide, by decide⟩
    | false =>
      have hv : sanitize_filename s = ⟨sanitizeCore s⟩ := by simp [sanitize_filename, he]
      rw [hv]
      constructor
      · intro c hc
        have hc2 : c ∈ sanitizeCore s := hc
        rw [sanitizeCore] at hc2
        have h1 := List.take_subset 50 _ hc2
        have h2 := mem_of_mem_pyStrip h1
        have h3 := (List.mem_filter.mp h2).2
        simpa using h3
      · show (sanitizeCore s).length ≤ 50
        rw [sanitizeCore]
        exact List.length_take_le 50 _
  · intro hne hclean hlen hhead hlast
    have hlt : '<' ∉ s.data := by
      intro hm
      have hf := hclean _ hm
      simp [forbiddenChar] at hf
    have h1 : stripTags s.data = s.data := stripTagsAux_id_of_no_tag_open _ s.data hlt
    have h2 : s.data.filter (fun c => !forbiddenChar c) = s.data :=
      List.filter_eq_self.mpr (fun a ha => by simp [hclean a ha])
    have h3 : pyStrip s.data = s.data := pyStrip_id s.data hhead hlast
    have h4 : s.data.take 50 = s.data := List.take_of_length_le hlen
    have hcore : sanitizeCore s = s.data := by
      rw [sanitizeCore, stripTags]
      rw [show s.data.length = s.data.length from rfl]
      rw [show stripTagsAux s.data.length s.data = s.data from h1]
      rw [h2, h3, h4]
    have hnonempty : (sanitizeCore s).isEmpty = false := by
      rw [hcore]
      cases hd : s.data with
      | nil => exact absurd (String.ext (by rw [hd])) hne
      | cons a l => rfl
    have hv : sanitize_filename s = ⟨sanitizeCore s⟩ := by
      simp [sanitize_filename, hnonempty]
    rw [hv, hcore]

/-- Claim C5 witness: a concrete nonempty clean short string is returned
unchanged by sanitize_filename. -/
theorem sanitize_filename_amended_witness :
    sanitize_filename "abc" = "abc" := by
  have h := (sanitize_filename_amended "abc").2
  refine h (by decide) (by decide) (by decide) ?_ ?_
  · intro c hc
    have hc2 : some 'a' = some c := hc
    injection hc2 with h2
    rw [← h2]
    decide
  · intro c hc
    have hc2 : some 'c' = some c := hc
    injection hc2 with h2
    rw [← h2]
    decide

/-- Claim C5 counterexample: the empty string is already clean and short
(no forbidden characters, length at most 50, no surrounding whitespace)
yet sanitize_filename does not return it unchanged; and sanitize_filename
is not idempotent, because truncation to 50 characters can expose trailing
whitespace that a second application strips (input: 49 letters a, then a
space, then the letter b). -/
theorem sanitize_filename_counterexample :
    sanitize_filename "" = "video" ∧ sanitize_filename "" ≠ "" ∧
    sanitize_filename
        (sanitize_filename "aaaaaaaaaaaaaaaaaaaaaaaaaaaaaaaaaaaaaaaaaaaaaaaaa b") ≠
      sanitize_filename "aaaaaaaaaaaaaaaaaaaaaaaaaaaaaaaaaaaaaaaaaaaaaaaaa b" := by
  refine ⟨by decide, by decide, by decide⟩

/-- Claim C10: sanitize_filename never returns the empty string; when
removing HTML tags, forbidden characters and surrounding whitespace leaves
nothing, the fixed fallback name video is returned instead. -/
theorem sanitize_filename_nonempty (s : String) :
    sanitize_filename s ≠ "" ∧
    (sanitizeCore s = [] → sanitize_filename s = "video") := by
  constructor
  · cases he : (sanitizeCore s).isEmpty with
    | true =>
      have hv : sanitize_filename s = "video" := by simp [sanitize_filename, he]
      rw [hv]; decide
    | false =>
      have hv : sanitize_filename s = ⟨sanitizeCore s⟩ := by simp [sanitize_filename, he]
      rw [hv]
      intro hcontra
      have h2 : sanitizeCore s = ([] : List Char) := congrArg String.data hcontra
      rw [h2] at he
      exact absurd he (by decide)
  · intro h
    simp [sanitize_filename, h]

/-- Claim C10 witness: an input that is nothing but an HTML tag collapses to
the fallback name. -/
theorem sanitize_filename_nonempty_witness :
    sanitize_filename "<b>" = "video" :=
  (sanitize_filename_nonempty "<b>").2 (by decide)

theorem qrStep_cascade (o : Option String) (k : Unit → Except QrError String)
    (l : List (Option String))
    (hk : k () = match firstSome l with
      | some s => Except.ok s
      | none => Except.error QrError.noQrFound) :
    qrStep o k = match firstSome (o :: l) with
      | some s => Except.ok s
      | none => Except.error QrError.noQrFound := by
  cases o with
  | some s => rfl
  | none => simpa [qrStep, firstSome] using hk

/-- Claim C2: for every readable input image, read_qrcode attempts the seven
preprocessing stages strictly in the stated order (stageResults), returns
the first successfully decoded payload without attempting later stages,
and fails with the NoQrFound error exactly when every stage produces
nothing. -/
theorem read_qrcode_cascade (img : ImageOracle)
    (h1 : img.fileOk = true) (h2 : img.imreadOk = true) :
    read_qrcode img = match firstSome (stageResults img) with
      | some s => Except.ok s
      | none => Except.error QrError.noQrFound := by
  simp only [read_qrcode, h1, h2, stageResults]
  norm_num
  refine qrStep_cascade _ _ _ ?_
  refine qrStep_cascade _ _ _ ?_
  refine qrStep_cascade _ _ _ ?_
  refine qrStep_cascade _ _ _ ?_
  refine qrStep_cascade _ _ _ ?_
  refine qrStep_cascade _ _ _ ?_
  refine qrStep_cascade _ _ _ ?_
  refine qrStep_cascade _ _ _ ?_
  refine qrStep_cascade _ _ _ ?_
  refine qrStep_cascade _ _ _ ?_
  refine qrStep_cascade _ _ _ ?_
  rfl

/-- Claim C2 witness: on a concrete readable image decoded only by the
contrast-enhancement stage, read_qrcode returns that payload. -/
theorem read_qrcode_cascade_witness :
    read_qrcode c2img = Except.ok "QRDATA" := by
  rw [read_qrcode_cascade c2img rfl rfl]
  rfl

theorem toNat_digitChar {m : Nat} (h : m < 10) : (digitChar m).toNat = 48 + m := by
  interval_cases m <;> decide

theorem decVal_append_digit (l : List Char) (c : Char) :
    decVal (l ++ [c]) = 10 * decVal l + (c.toNat - 48) := by
  simp [decVal, List.foldl_append]

theorem decVal_natToDecAux : ∀ fuel n, n < fuel → decVal (natToDecAux fuel n) = n := by
  intro fuel
  induction fuel with
  | zero => intro n h; exact absurd h (Nat.not_lt_zero n)
  | succ f ih =>
    intro n h
    have hstep : natToDecAux (f + 1) n =
        if n < 10 then [digitChar n]
        else natToDecAux f (n / 10) ++ [digitChar (n % 10)] := rfl
    by_cases h10 : n < 10
    · rw [hstep, if_pos h10]
      simp [decVal, toNat_digitChar h10]
    · have hd : n / 10 < f := by
        have h1 : n / 10 < n := Nat.div_lt_self (by omega) (by omega)
        omega
      rw [hstep, if_neg h10, decVal_append_digit, ih _ hd,
        toNat_digitChar (Nat.mod_lt n (by omega))]
      have := Nat.div_add_mod n 10
      omega

theorem natToDec_injective {a b : Nat} (h : natToDec a = natToDec b) : a = b := by
  have ha : decVal (natToDec a) = a := decVal_natToDecAux (a + 1) a (by omega)
  have hb : decVal (natToDec b) = b := decVal_natToDecAux (b + 1) b (by omega)
  rw [← ha, h, hb]

theorem mkCand_injective (base ext : String) {k1 k2 : Nat}
    (h : mkCand base ext k1 = mkCand base ext k2) : k1 = k2 := by
  apply natToDec_injective
  have hd : base.data ++ ('_' :: (natToDec k1 ++ ext.data)) =
      base.data ++ ('_' :: (natToDec k2 ++ ext.data)) := by
    have h0 := congrArg String.data h
    simpa [mkCand, decRepr, String.data_append] using h0
  have h2 := List.append_cancel_left hd
  injection h2 with _ h3
  exact List.append_cancel_right h3

theorem exists_free_cand (fs : List String) (base ext : String) :
    ∃ j, j < fs.length + 1 ∧ mkCand base ext (1 + j) ∉ fs := by
  by_contra hcon
  push_neg at hcon
  have hinj : Function.Injective
      (fun j : Fin (fs.length + 1) => mkCand base ext (1 + j.1)) := by
    intro x y hxy
    have h1 := mkCand_injective base ext hxy
    exact Fin.ext (by omega)
  have hsub : ∀ j : Fin (fs.length + 1),
      mkCand base ext (1 + j.1) ∈ fs.toFinset := by
    intro j
    rw [List.mem_toFinset]
    exact hcon j.1 j.2
  have hf : ∀ a ∈ (Finset.univ : Finset (Fin (fs.length + 1))),
      mkCand base ext (1 + a.1) ∈ fs.toFinset := fun a _ => hsub a
  have hinjOn : Set.InjOn (fun j : Fin (fs.length + 1) => mkCand base ext (1 + j.1))
      ((Finset.univ : Finset (Fin (fs.length + 1))) : Set (Fin (fs.length + 1))) :=
    Function.Injective.injOn hinj
  have hcard := Finset.card_le_card_of_injOn
    (fun j : Fin (fs.length + 1) => mkCand base ext (1 + j.1)) hf hinjOn
  have h1 : (Finset.univ : Finset (Fin (fs.length + 1))).card = fs.length + 1 := by
    simp
  have h2 := List.toFinset_card_le fs
  omega

theorem uniqueLoop_first_free (fs : List String) (base ext : String) :
    ∀ fuel counter, (∃ j, j < fuel ∧ mkCand base ext (counter + j) ∉ fs) →
    ∃ j, uniqueLoop fs base ext counter fuel = mkCand base ext (counter + j) ∧
      mkCand base ext (counter + j) ∉ fs ∧
      ∀ i, i < j → mkCand base ext (counter + i) ∈ fs := by
  intro fuel
  induction fuel with
  | zero =>
    intro counter h
    obtain ⟨j, hj, _⟩ := h
    omega
  | succ f ih =>
    intro counter h
    have hstep : uniqueLoop fs base ext counter (f + 1) =
        if mkCand base ext counter ∈ fs then uniqueLoop fs base ext (counter + 1) f
        else mkCand base ext counter := rfl
    by_cases hc : mkCand base ext counter ∈ fs
    · obtain ⟨j, hj, hfree⟩ := h
      have hj0 : j ≠ 0 := by
        rintro rfl
        exact hfree (by simpa using hc)
      obtain ⟨j2, rfl⟩ : ∃ j2, j = j2 + 1 := ⟨j - 1, by omega⟩
      have hex : ∃ j3, j3 < f ∧ mkCand base ext (counter + 1 + j3) ∉ fs :=
        ⟨j2, by omega, by
          rw [show counter + 1 + j2 = counter + (j2 + 1) from by omega]
          exact hfree⟩
      obtain ⟨j4, heq, hfr, hmem⟩ := ih (counter + 1) hex
      refine ⟨j4 + 1, ?_, ?_, ?_⟩
      · rw [hstep, if_pos hc,
          show counter + (j4 + 1) = counter + 1 + j4 from by omega]
        exact heq
      · rw [show counter + (j4 + 1) = counter + 1 + j4 from by omega]
        exact hfr
      · intro i hi
        cases i with
        | zero => simpa using hc
        | succ i2 =>
          rw [show counter + (i2 + 1) = counter + 1 + i2 from by omega]
          exact hmem i2 (by omega)
    · refine ⟨0, ?_, ?_, ?_⟩
      · rw [hstep, if_neg hc]
        simp
      · simpa using hc
      · intro i hi
        omega

/-- Claim C6: get_unique_path returns the requested path itself when no file
exists at it; otherwise it returns the first free path among the variants
with suffixes _1, _2, dots inserted before the extension, in increasing
counter order (every earlier candidate, the requested path included, is an
existing file), and the returned path never refers to an existing file. -/
theorem get_unique_path_spec (fs : List String) (p : String) :
    ∃ k, get_unique_path fs p = candSeq p k ∧ candSeq p k ∉ fs ∧
      ∀ j, j < k → candSeq p j ∈ fs := by
  by_cases hp : p ∈ fs
  · obtain ⟨j4, heq, hfr, hmem⟩ := uniqueLoop_first_free fs (splitext p).1 (splitext p).2
      (fs.length + 1) 1 (by
        obtain ⟨j, hj, hfree⟩ := exists_free_cand fs (splitext p).1 (splitext p).2
        exact ⟨j, hj, hfree⟩)
    have hget : get_unique_path fs p =
        uniqueLoop fs (splitext p).1 (splitext p).2 1 (fs.length + 1) := by
      simp [get_unique_path, hp]
    refine ⟨j4 + 1, ?_, ?_, ?_⟩
    · rw [hget, heq, candSeq, show 1 + j4 = j4 + 1 from by omega]
    · rw [candSeq, show j4 + 1 = 1 + j4 from by omega]
      exact hfr
    · intro j hj
      cases j with
      | zero => exact hp
      | succ i =>
        rw [candSeq, show i + 1 = 1 + i from by omega]
        exact hmem i (by omega)
  · exact ⟨0, by simp [get_unique_path, hp, candSeq], by simpa [candSeq] using hp,
      by intro j hj; omega⟩

/-- Claim C6 witness: with files a.mp4 and a_1.mp4 present, the
characterization applies to requesting a.mp4 (it yields a_2.mp4). -/
theorem get_unique_path_spec_witness :
    (∃ k, get_unique_path ["a.mp4", "a_1.mp4"] "a.mp4" = candSeq "a.mp4" k ∧
      candSeq "a.mp4" k ∉ ["a.mp4", "a_1.mp4"] ∧
      ∀ j, j < k → candSeq "a.mp4" j ∈ ["a.mp4", "a_1.mp4"]) ∧
    get_unique_path ["a.mp4", "a_1.mp4"] "a.mp4" = "a_2.mp4" :=
  ⟨get_unique_path_spec ["a.mp4", "a_1.mp4"] "a.mp4", by decide⟩

theorem pyTruthy_pyOr (a b : Option String) :
    pyTruthy (pyOr a b) = (pyTruthy a || pyTruthy b) := by
  cases ha : pyTruthy a <;> simp [pyOr, ha]

theorem pyOr_pos {a : Option String} (b : Option String) (h : pyTruthy a = true) :
    pyOr a b = a := by
  simp [pyOr, h]

theorem pyOr_neg {a : Option String} (b : Option String) (h : pyTruthy a = false) :
    pyOr a b = b := by
  simp [pyOr, h]

theorem pyTruthy_some {o : Option String} (h : pyTruthy o = true) :
    ∃ s, o = some s ∧ s ≠ "" := by
  cases o with
  | none => simp [pyTruthy] at h
  | some s =>
    refine ⟨s, rfl, ?_⟩
    simpa [pyTruthy] using h

theorem weibo_selection (a b c d e : Option String) :
    (pyTruthy (if pyTruthy (pyOr (pyOr a b) c) then pyOr (pyOr a b) c else pyOr d e) = true →
      firstTruthy [a, b, c, d, e] =
        (if pyTruthy (pyOr (pyOr a b) c) then pyOr (pyOr a b) c else pyOr d e)) ∧
    (pyTruthy (if pyTruthy (pyOr (pyOr a b) c) then pyOr (pyOr a b) c else pyOr d e) = false →
      firstTruthy [a, b, c, d, e] = none) := by
  cases ha : pyTruthy a <;> cases hb : pyTruthy b <;> cases hc : pyTruthy c <;>
    cases hd : pyTruthy d <;> cases he : pyTruthy e <;>
    simp [firstTruthy, pyTruthy_pyOr, pyOr_pos, pyOr_neg, ha, hb, hc, hd, he]

theorem wV2_cases (resp : WeiboResp) :
    (pyTruthy (wV2 resp) = true → firstTruthy (weibo_candidates resp) = wV2 resp) ∧
    (pyTruthy (wV2 resp) = false → firstTruthy (weibo_candidates resp) = none) := by
  have h2 : wV2 resp =
      (if pyTruthy (pyOr (pyOr (weiboPageInfoOf resp).urls.mp4_720p_mp4
            (weiboPageInfoOf resp).urls.mp4_hd_mp4) (weiboPageInfoOf resp).urls.mp4_ld_mp4)
        then pyOr (pyOr (weiboPageInfoOf resp).urls.mp4_720p_mp4
            (weiboPageInfoOf resp).urls.mp4_hd_mp4) (weiboPageInfoOf resp).urls.mp4_ld_mp4
        else pyOr (weiboPageInfoOf resp).media_info.stream_url_hd
            (weiboPageInfoOf resp).media_info.stream_url) := rfl
  have h3 : weibo_candidates resp =
      [(weiboPageInfoOf resp).urls.mp4_720p_mp4, (weiboPageInfoOf resp).urls.mp4_hd_mp4,
       (weiboPageInfoOf resp).urls.mp4_ld_mp4,
       (weiboPageInfoOf resp).media_info.stream_url_hd,
       (weiboPageInfoOf resp).media_info.stream_url] := rfl
  rw [h2, h3]
  exact weibo_selection _ _ _ _ _

/-- Claim C7: for every successful Weibo API response of type video, the
media URL is selected in the preference order 720p MP4, HD MP4,
standard-definition MP4, then the legacy streaming fields with HD
preferred over standard (weibo_candidates lists exactly this order);
when some candidate is truthy the locator succeeds with the first truthy
candidate, which is nonempty (never a placeholder), and when no candidate
is truthy, it fails with an explicit error. -/
theorem weibo_media_url_selection (resp : WeiboResp)
    (hok : resp.ok = some 1)
    (htype : (weiboPageInfoOf resp).type = some "video") :
    (∀ u, firstTruthy (weibo_candidates resp) = some u →
      weibo_get_video_info resp = Except.ok (u, weibo_title resp) ∧ u ≠ "") ∧
    (firstTruthy (weibo_candidates resp) = none →
      weibo_get_video_info resp = Except.error WeiboErr.noVideoUrl) := by
  have hw : weibo_get_video_info resp =
      (if pyTruthy (wV2 resp) = false then Except.error WeiboErr.noVideoUrl
       else Except.ok ((wV2 resp).getD "", weibo_title resp)) := by
    simp only [weibo_get_video_info]
    rw [if_neg (by simp [hok]), if_neg (by simp [htype])]
  constructor
  · intro u hu
    cases hv : pyTruthy (wV2 resp) with
    | false =>
      rw [(wV2_cases resp).2 hv] at hu
      exact absurd hu (by simp)
    | true =>
      have h2 : wV2 resp = some u := ((wV2_cases resp).1 hv).symm.trans hu
      have hne : u ≠ "" := by
        obtain ⟨s, hs, hsne⟩ := pyTruthy_some hv
        rw [h2] at hs
        injection hs with hs2
        rw [hs2]
        exact hsne
      refine ⟨?_, hne⟩
      rw [hw, if_neg (by simp [hv]), h2]
      rfl
  · intro hn
    cases hv : pyTruthy (wV2 resp) with
    | true =>
      have h2 := ((wV2_cases resp).1 hv).symm.trans hn
      rw [h2] at hv
      simp [pyTruthy] at hv
    | false =>
      rw [hw, if_pos hv]

/-- Claim C7 witness: a successful video response offering only the HD MP4
variant yields that URL (and the title derived from the author name). -/
theorem weibo_media_url_selection_witness :
    weibo_get_video_info wRespW = Except.ok ("http://hd", "weibo_weibo") ∧
    ("http://hd" : String) ≠ "" := by
  have h := (weibo_media_url_selection wRespW rfl rfl).1 "http://hd" rfl
  exact ⟨h.1.trans (by rfl), h.2⟩

/-- Claim C8 counterexample: a Weibo API response whose page-info type is
not video but whose success flag is unset fails with ApiError, not with
NotAVideo, refuting the claim quantified over every response. -/
theorem weibo_not_video_counterexample :
    (weiboPageInfoOf wRespC8).type ≠ some "video" ∧
    weibo_get_video_info wRespC8 = Except.error (WeiboErr.apiError "rate limited") ∧
    weibo_get_video_info wRespC8 ≠ Except.error WeiboErr.notAVideo := by
  refine ⟨by decide, rfl, ?_⟩
  intro h
  rw [show weibo_get_video_info wRespC8 =
    Except.error (WeiboErr.apiError "rate limited") from rfl] at h
  simp at h

/-- Claim C8 (amended): for every successful Weibo API response (success
flag 1) whose embedded page-info type is not video, the locator fails
with NotAVideo before any media-URL selection or title derivation, and
download computes no output path, propagating the same error. The
original claim, quantified over every response, fails because an
unsuccessful response yields ApiError instead (see the counterexample). -/
theorem weibo_not_video_amended (resp : WeiboResp) (fs : List String)
    (outDir : String) (hok : resp.ok = some 1)
    (htype : (weiboPageInfoOf resp).type ≠ some "video") :
    weibo_get_video_info resp = Except.error WeiboErr.notAVideo ∧
    weibo_download fs outDir resp = Except.error WeiboErr.notAVideo := by
  have h1 : weibo_get_video_info resp = Except.error WeiboErr.notAVideo := by
    simp only [weibo_get_video_info]
    rw [if_neg (by simp [hok]), if_pos htype]
  exact ⟨h1, by simp [weibo_download, h1]⟩

/-- Claim C8 witness: a successful image-type response, even one carrying a
720p URL, makes download fail with NotAVideo and yields no output path. -/
theorem weibo_not_video_amended_witness :
    weibo_download [] "out" wRespC8b = Except.error WeiboErr.notAVideo :=
  (weibo_not_video_amended wRespC8b [] "out" rfl (by decide)).2

/-- Claim C9: when both a cookie file and a browser profile are configured,
the cookie-bearing options carry the cookie file and no browser profile;
the browser profile is used only when no cookie file is given; the chrome
default only when neither is. -/
theorem build_ydl_opts_priority (cfg : InstaCfg) :
    (pyTruthy cfg.cookies_file = true →
      (build_ydl_opts cfg true).cookiefile = cfg.cookies_file ∧
      (build_ydl_opts cfg true).cookiesfrombrowser = none) ∧
    (pyTruthy cfg.cookies_file = false → pyTruthy cfg.cookies_from_browser = true →
      (build_ydl_opts cfg true).cookiefile = none ∧
      (build_ydl_opts cfg true).cookiesfrombrowser = cfg.cookies_from_browser) ∧
    (pyTruthy cfg.cookies_file = false → pyTruthy cfg.cookies_from_browser = false →
      (build_ydl_opts cfg true).cookiefile = none ∧
      (build_ydl_opts cfg true).cookiesfrombrowser = some "chrome") := by
  refine ⟨?_, ?_, ?_⟩
  · intro h
    simp [build_ydl_opts, h]
  · intro h1 h2
    simp [build_ydl_opts, h1, h2]
  · intro h1 h2
    simp [build_ydl_opts, h1, h2]

/-- Claim C9 witness: with both a cookie file and a browser profile
supplied, the credentialed options use the cookie file only. -/
theorem build_ydl_opts_priority_witness :
    (build_ydl_opts ⟨some "firefox", some "/tmp/cookies.txt"⟩ true).cookiefile =
      some "/tmp/cookies.txt" ∧
    (build_ydl_opts ⟨some "firefox", some "/tmp/cookies.txt"⟩ true).cookiesfrombrowser =
      none :=
  (build_ydl_opts_priority ⟨some "firefox", some "/tmp/cookies.txt"⟩).1 (by decide)

/-- Claim C3: the first Instagram extraction attempt carries no credential
material; exactly when it fails with a message matching the retry
condition (rate-limiting, auth-required, unavailable content), one
further attempt is made with credential-bearing options (which always
carry a cookie file or a browser profile, chrome by default), and that
second outcome is final; any other failure propagates unchanged; and the
other locators convert no failure into a second attempt (a Weibo
transport failure and a Xiaohongshu fetch failure propagate as-is). -/
theorem insta_retry_policy (extract : YdlOpts → Except String (Option InstaInfo))
    (cfg : InstaCfg) :
    ((build_ydl_opts cfg false).cookiefile = none ∧
      (build_ydl_opts cfg false).cookiesfrombrowser = none) ∧
    (pyTruthy (build_ydl_opts cfg true).cookiefile ||
      pyTruthy (build_ydl_opts cfg true).cookiesfrombrowser) = true ∧
    (∀ r, (extract (build_ydl_opts cfg false)).bind parse_video_info = Except.ok r →
      insta_get_video_info extract cfg = Except.ok r) ∧
    (∀ e, (extract (build_ydl_opts cfg false)).bind parse_video_info = Except.error e →
      (retryCond e = true →
        insta_get_video_info extract cfg =
          (extract (build_ydl_opts cfg true)).bind parse_video_info) ∧
      (retryCond e = false → insta_get_video_info extract cfg = Except.error e)) ∧
    (∀ e, weibo_locate (Except.error e) = Except.error (WeiboErr.upstream e)) ∧
    (∀ htmlFind url e, containsSub "xhslink.com" url = false →
      xhs_get_video_info (fun u => Except.ok u) (fun _ => Except.error e) htmlFind url =
        Except.error e) := by
  refine ⟨⟨by simp [build_ydl_opts], by simp [build_ydl_opts]⟩, ?_, ?_, ?_, ?_, ?_⟩
  · cases h1 : pyTruthy cfg.cookies_file with
    | true => simp [build_ydl_opts, h1]
    | false =>
      cases h2 : pyTruthy cfg.cookies_from_browser with
      | true => simp [build_ydl_opts, h1, h2]
      | false =>
        simp [build_ydl_opts, h1, h2]
        decide
  · intro r h
    simp [insta_get_video_info, h]
  · intro e h
    constructor
    · intro hrc
      simp [insta_get_video_info, h, hrc]
    · intro hrc
      simp [insta_get_video_info, h, hrc]
  · intro e
    rfl
  · intro htmlFind url e hurl
    simp [xhs_get_video_info, hurl, xhs_fetch_and_find]

/-- Claim C3 witness: with no credentials configured, a login-required
failure on the cookie-free attempt is followed by exactly one
chrome-cookie attempt, whose result is returned. -/
theorem insta_retry_policy_witness :
    insta_get_video_info c3extract ⟨none, none⟩ = Except.ok ("http://v.mp4", "hi") := by
  have h := ((insta_retry_policy c3extract ⟨none, none⟩).2.2.2.1 "Login required" rfl).1 rfl
  rw [h]
  rfl

/-- Claim C1 counterexample: in the current pipeline, a decoded xiaohongshu
payload shorter than 50 characters that contains no short-link domain is
used directly: the resolver oracle is never consulted (it would fail
here), so the payload is not treated as needing redirect resolution,
contradicting the claimed length heuristic. -/
theorem short_payload_counterexample :
    detect_platform "https://www.xiaohongshu.com/explore/abc" =
      Except.ok Platform.xiaohongshu ∧
    String.length "https://www.xiaohongshu.com/explore/abc" < 50 ∧
    containsSub "xhslink.com" "https://www.xiaohongshu.com/explore/abc" = false ∧
    xhs_get_video_info (fun _ => Except.error "resolver consulted")
        (fun u => Except.ok u) (fun h => some (h, "t"))
        "https://www.xiaohongshu.com/explore/abc" =
      Except.ok ("https://www.xiaohongshu.com/explore/abc", "t") := by
  refine ⟨rfl, by decide, by decide, rfl⟩

/-- Claim C1 (amended): the length heuristic belongs to the legacy
orchestrator, where the decoded payload is resolved through redirects iff
it contains the short-link domain or is shorter than 50 characters; in
the current pipeline the payload is resolved iff it contains the
short-link domain (inside the xiaohongshu locator), and payloads without
it, of any length, are used directly. -/
theorem redirect_resolution_amended (resolve fetch : String → Except String String)
    (htmlFind : String → Option (String × String)) (url : String) :
    (containsSub "xhslink.com" url = true →
      xhs_get_video_info resolve fetch htmlFind url =
        (match resolve url with
         | .error e => Except.error e
         | .ok u => xhs_fetch_and_find fetch htmlFind u)) ∧
    (containsSub "xhslink.com" url = false →
      xhs_get_video_info resolve fetch htmlFind url =
        xhs_fetch_and_find fetch htmlFind url) ∧
    (∀ r : String → String, ∀ q : String,
      ((containsSub "xhslink.com" q || decide (q.length < 50)) = true →
        legacy_page_url r q = r q) ∧
      ((containsSub "xhslink.com" q || decide (q.length < 50)) = false →
        legacy_page_url r q = q)) := by
  refine ⟨?_, ?_, ?_⟩
  · intro h
    simp [xhs_get_video_info, h]
  · intro h
    simp [xhs_get_video_info, h]
  · intro r q
    constructor
    · intro h
      simp [legacy_page_url, h]
    · intro h
      simp [legacy_page_url, h]

/-- Claim C1 witness: a short-link payload is resolved by the current
locator before fetching, and a short payload is resolved by the legacy
orchestrator. -/
theorem redirect_resolution_amended_witness :
    xhs_get_video_info (fun _ => Except.ok "resolved") (fun u => Except.ok u)
        (fun h => some (h, "t")) "http://xhslink.com/x" =
      Except.ok ("resolved", "t") ∧
    legacy_page_url (fun s => s ++ "/final") "short" = "short/final" := by
  constructor
  · rw [(redirect_resolution_amended (fun _ => Except.ok "resolved") (fun u => Except.ok u)
      (fun h => some (h, "t")) "http://xhslink.com/x").1 (by decide)]
    rfl
  · rw [((redirect_resolution_amended (fun _ => Except.ok "resolved") (fun u => Except.ok u)
      (fun h => some (h, "t")) "http://xhslink.com/x").2.2 (fun s => s ++ "/final")
      "short").1 (by decide)]
    decide

end XhsVid
